import Mathlib

/-
Shallow embedding of the tool-calling agent in `mcp_agent/agent.py`
(class MCPAgent), together with its configuration (`mcp_agent/config.py`)
and provider constants (`mcp_agent/providers.py`).

Modelling conventions:
- JSON values (tool inputs, tool results, parameter schemas) are carried as
  opaque strings; `response.json()` results are the strings handed in by the
  network oracles.
- Network effects are explicit oracles: the catalog fetch is an
  `Except String (List ToolEntry)` argument, tool-endpoint POSTs are a
  `transport : String -> String -> Except String String` function
  (endpoint, body -> result or error text), and provider responses are
  functions from the iteration index.
- Python truthiness of strings (empty string is falsy) is modelled by
  `pyTruthy` / `pyOrStr` / `pyOrOpt`.
- A raised-and-not-caught Python exception is the `RunOutcome.raises`
  constructor; `unboundLocal v` stands for the `UnboundLocalError` text for
  local variable `v`.
-/

namespace McpAgent

/- Provider identifiers, from `mcp_agent/providers.py` (class LLMProvider). -/
namespace LLMProvider

@[reducible] def OLLAMA : String := "ollama"

@[reducible] def ANTHROPIC : String := "anthropic"

@[reducible] def OPENAI : String := "openai"

end LLMProvider

/-- Python truthiness of an optional string: `None` and `""` are falsy. -/
def pyTruthy : Option String → Bool
  | none => false
  | some s => !(s == "")

/-- Python `a or b` where `a` is an optional string and `b` a string. -/
def pyOrStr (a : Option String) (b : String) : String :=
  match a with
  | none => b
  | some s => if s == "" then b else s

/-- Python `a or b` for two optional strings (as in `config.api_key or os.getenv(...)`). -/
def pyOrOpt (a b : Option String) : Option String :=
  if pyTruthy a then a else b

/-- Configuration, from `mcp_agent/config.py` (dataclass AgentConfig).
The system prompt text is abbreviated; no claim depends on its content. -/
structure AgentConfig where
  mcp_server_url : String := "http://localhost:3333"
  provider : String := "anthropic"
  model : Option String := none
  api_key : Option String := none
  ollama_url : String := "http://localhost:11434/api/chat"
  max_iterations : Nat := 5
  max_tokens : Nat := 1024
  timeout : Nat := 300
  use_direct_tool_calls : Bool := true
  force_proxy_tools : List String := []
  system_prompt : String := "You are a helpful assistant with access to user data tools."
deriving DecidableEq, Repr

/-- One entry of the tool catalog returned by `GET {mcp_server_url}/tools`:
`ttype` models `tool["type"]`, the `f`-prefixed fields model
`tool.get("function", \x7b\x7d).get(...)`; `none` stands for an absent key. -/
structure ToolEntry where
  ttype : String := "function"
  fname : Option String := none
  fdescription : Option String := none
  fparameters : Option String := none
  fdirect_endpoint : Option String := none
deriving DecidableEq, Repr

/-- A value of `self.tool_registry`, built in `discover_tools`
(agent.py lines 82-94). -/
structure ToolInfo where
  description : Option String
  parameters : Option String
  direct_endpoint : Option String
  proxy_endpoint : String
deriving DecidableEq, Repr

/-- The mutable agent attributes set in `__init__` and written by
`discover_tools`: `self.tools`, `self.tool_registry`, `self.tools_discovered`.
The registry is an association list with Python-dict semantics
(insertion order kept, later assignment to an existing key overwrites). -/
structure AgentState where
  tools : List ToolEntry := []
  tool_registry : List (String × ToolInfo) := []
  tools_discovered : Bool := false
deriving DecidableEq, Repr

/-- The state of a freshly constructed agent (agent.py lines 31-33). -/
def freshState : AgentState := {}

/-- Python-dict assignment `d[k] = v` on an association list: overwrite in
place if the key exists, else append. -/
def dictInsert : List (String × ToolInfo) → String → ToolInfo → List (String × ToolInfo)
  | [], k, v => [(k, v)]
  | (k', v') :: rest, k, v =>
    if k' == k then (k', v) :: rest else (k', v') :: dictInsert rest k v

/-- The registry value built for a named catalog entry
(agent.py lines 85-90). -/
def buildToolInfo (mcp_server_url : String) (name : String) (t : ToolEntry) : ToolInfo :=
  { description := t.fdescription
    parameters := t.fparameters
    direct_endpoint := t.fdirect_endpoint
    proxy_endpoint := mcp_server_url ++ "/tools/" ++ name }

/-- The registry-building loop of `discover_tools` (agent.py lines 82-94):
entries whose `function.name` is absent or empty (falsy) are skipped. -/
def registerTools (url : String) : List ToolEntry → List (String × ToolInfo) → List (String × ToolInfo)
  | [], reg => reg
  | t :: rest, reg =>
    match t.fname with
    | none => registerTools url rest reg
    | some name =>
      if name == "" then registerTools url rest reg
      else registerTools url rest (dictInsert reg name (buildToolInfo url name t))

/-- Result of one call to `discover_tools`: the returned value or raised
error, the agent state afterwards, and how many catalog fetches were made. -/
structure DiscoverOutcome where
  result : Except String (List ToolEntry)
  state : AgentState
  network_calls : Nat
deriving Repr

/-- `MCPAgent.discover_tools` (agent.py lines 61-102): if already discovered,
return the cached `self.tools` with no network call; otherwise fetch the
catalog (`fetch` oracle), build the registry, set the discovered flag.  A
fetch failure re-raises and leaves the state unchanged. -/
def discover_tools (config : AgentConfig) (st : AgentState)
    (fetch : Except String (List ToolEntry)) : DiscoverOutcome :=
  if st.tools_discovered then
    { result := .ok st.tools, state := st, network_calls := 0 }
  else
    match fetch with
    | .error e => { result := .error e, state := st, network_calls := 1 }
    | .ok catalog =>
      { result := .ok catalog
        state := { tools := catalog
                   tool_registry := registerTools config.mcp_server_url catalog st.tool_registry
                   tools_discovered := true }
        network_calls := 1 }

/-- Decidable equality for `Except`, used to evaluate invocation outcomes on
concrete inputs. -/
instance {α β : Type} [DecidableEq α] [DecidableEq β] : DecidableEq (Except α β) :=
  fun a b =>
    match a, b with
    | .ok x, .ok y =>
      if h : x = y then .isTrue (congrArg Except.ok h)
      else .isFalse (fun hc => h (Except.ok.inj hc))
    | .ok _, .error _ => .isFalse (fun hc => Except.noConfusion hc)
    | .error _, .ok _ => .isFalse (fun hc => Except.noConfusion hc)
    | .error x, .error y =>
      if h : x = y then .isTrue (congrArg Except.error h)
      else .isFalse (fun hc => h (Except.error.inj hc))

/-- Which endpoint kind `invoke_tool` chose (its `call_type` local). -/
inductive CallType
  | direct
  | proxy
  | proxyFallback
deriving DecidableEq, Repr

/-- Result of one call to `invoke_tool`: the returned JSON (or raised error
text), the endpoint actually POSTed to (none when no POST happened), and
whether the no-direct-endpoint warning was logged. -/
structure InvokeOutcome where
  result : Except String String
  endpoint_used : Option (String × CallType)
  warned : Bool
deriving DecidableEq, Repr

/-- `MCPAgent.invoke_tool` (agent.py lines 104-183): ensure discovery, check
the registry (unknown tool raises), resolve direct-vs-proxy per the config
default, the per-call override, and the force-proxy list, fall back to the
proxy endpoint (with a warning) when a direct call is preferred but no
direct endpoint is registered (a registered empty-string endpoint is falsy
and also falls back), then POST to the chosen endpoint. -/
def invoke_tool (config : AgentConfig) (st : AgentState)
    (fetch : Except String (List ToolEntry))
    (tool_name : String) (tool_input : String) (use_direct : Option Bool)
    (transport : String → String → Except String String) : InvokeOutcome :=
  match (discover_tools config st fetch).result with
  | .error e => { result := .error e, endpoint_used := none, warned := false }
  | .ok _ =>
    match (discover_tools config st fetch).state.tool_registry.lookup tool_name with
    | none =>
      { result := .error ("Unknown tool: " ++ tool_name), endpoint_used := none, warned := false }
    | some tool_info =>
      let ud0 := use_direct.getD config.use_direct_tool_calls
      let ud := if tool_name ∈ config.force_proxy_tools then false else ud0
      if ud then
        match tool_info.direct_endpoint with
        | none =>
          { result := transport tool_info.proxy_endpoint tool_input
            endpoint_used := some (tool_info.proxy_endpoint, .proxyFallback)
            warned := true }
        | some d =>
          if d == "" then
            { result := transport tool_info.proxy_endpoint tool_input
              endpoint_used := some (tool_info.proxy_endpoint, .proxyFallback)
              warned := true }
          else
            { result := transport d tool_input
              endpoint_used := some (d, .direct)
              warned := false }
      else
        { result := transport tool_info.proxy_endpoint tool_input
          endpoint_used := some (tool_info.proxy_endpoint, .proxy)
          warned := false }

/-- `MCPAgent.get_available_tools` (agent.py lines 185-190). -/
def get_available_tools (st : AgentState) : List (String × Option String) :=
  st.tool_registry.map (fun p => (p.1, p.2.description))

/-- One tool in Anthropic format, produced by `_convert_tools_for_anthropic`. -/
structure AnthropicTool where
  name : Option String
  description : Option String
  input_schema : String
deriving DecidableEq, Repr

/-- `MCPAgent._convert_tools_for_anthropic` (agent.py lines 192-202): maps
over the whole cached `self.tools` list, nameless entries included
(`func.get("parameters", \x7b\x7d)` defaults to the empty schema). -/
def convert_tools_for_anthropic (tools : List ToolEntry) : List AnthropicTool :=
  tools.map (fun t =>
    { name := t.fname
      description := t.fdescription
      input_schema := t.fparameters.getD "\x7b\x7d" })

/-- A successfully constructed agent (`__init__`, agent.py lines 23-59):
the resolved model name and credential. -/
structure InitializedAgent where
  config : AgentConfig
  model : String
  api_key : Option String
deriving DecidableEq, Repr

/-- `MCPAgent.__init__` (agent.py lines 23-59): Ollama needs no credential;
Anthropic/OpenAI resolve `config.api_key or os.getenv(...)` and raise
ValueError when the result is falsy; any other provider string raises.
The construction performs no network call: this definition consults no
fetch or transport oracle. -/
def init (config : AgentConfig) (env : String → Option String) :
    Except String InitializedAgent :=
  if config.provider == LLMProvider.OLLAMA then
    .ok { config := config, model := pyOrStr config.model "mistral:latest", api_key := none }
  else if config.provider == LLMProvider.ANTHROPIC then
    let key := pyOrOpt config.api_key (env "ANTHROPIC_API_KEY")
    if pyTruthy key then
      .ok { config := config, model := pyOrStr config.model "claude-sonnet-4-20250514", api_key := key }
    else
      .error "ANTHROPIC_API_KEY must be set for Anthropic provider"
  else if config.provider == LLMProvider.OPENAI then
    let key := pyOrOpt config.api_key (env "OPENAI_API_KEY")
    if pyTruthy key then
      .ok { config := config, model := pyOrStr config.model "gpt-4o", api_key := key }
    else
      .error "OPENAI_API_KEY must be set for OpenAI provider"
  else
    .error ("Unknown provider: " ++ config.provider)

/-
Embedding of `MCPAgent.run` (agent.py lines 293-503).

The loop is `for iteration in range(self.config.max_iterations): ...` with
provider branches for ANTHROPIC (lines 323-393) and OPENAI (lines 395-458)
only.  The `else:` on line 460 is indented at the level of the `for`
statement, so it is the loop's for/else clause: it runs exactly when all
iterations complete without a `return`, and it first evaluates
`final_response = output` (line 462), where the local `output` is assigned
only inside the OPENAI branch (line 411).  The `elif` on line 466 is
indented at the level of `if verbose:` (line 463), so the whole OLLAMA
block (lines 466-501) belongs to that inner conditional inside the
for/else clause; the loop body itself has no OLLAMA branch.  The final
`return "Max iterations reached"` (line 503) runs only when the for/else
clause falls through its `if verbose / elif OLLAMA` conditional.

Each provider's `run` is embedded as its own function, modelling `run`
under that fixed `config.provider`.  Provider responses are an oracle
indexed by the iteration counter, and `invoke` is an oracle for
`self.invoke_tool` at a given iteration: `.ok result` for a successful
invocation (the JSON result as a string), `.error e` for any exception it
raises (unknown tool, HTTP error status, transport or timeout failure),
with `e` standing for `str(e)`.  Tool discovery before the loop (line 311)
is modelled separately by `discover_tools` and elided here.
-/

/-- One content block of an Anthropic response (`response.content`). -/
inductive ContentBlock
  | tool_use (tid : String) (name : String) (input : String)
  | text (t : String)
  | other (btype : String)
deriving DecidableEq, Repr

/-- Block-type test for `block.type == "tool_use"`. -/
def ContentBlock.isToolUse : ContentBlock → Bool
  | .tool_use _ _ _ => true
  | _ => false

/-- Block-type test for `block.type == "text"`. -/
def ContentBlock.isText : ContentBlock → Bool
  | .text _ => true
  | _ => false

/-- An Anthropic API response as consumed by the loop: its stop reason and
content blocks. -/
structure AnthropicResponse where
  stop_reason : String
  content : List ContentBlock
deriving DecidableEq, Repr

/-- The first output item of an OpenAI Responses-API response
(`response.output[0]`): either an item whose `type` equals `"function"`
(with its name, arguments and content), or any other item carrying text. -/
inductive OpenAIOutput
  | function (name : String) (arguments : String) (content : String)
  | message (content : String)
deriving DecidableEq, Repr

/-- A conversation-history entry, with one constructor per `messages.append`
site in `run`. -/
inductive Message
  | user (content : String)
  | assistant_blocks (content : List ContentBlock)
  | user_tool_result (tool_use_id : String) (content : String)
  | assistant_tool_calls (content : String) (tid : String) (name : String) (arguments : String)
  | tool (tool_call_id : String) (content : String)
deriving DecidableEq, Repr

/-- How one call of `run` ends: a returned string, the raw (non-string)
OpenAI output object returned on line 465, or an uncaught exception. -/
inductive RunOutcome
  | returns (value : String)
  | returnsOutput (output : OpenAIOutput)
  | raises (error : String)
deriving DecidableEq, Repr

/-- The text of the UnboundLocalError raised when a never-assigned local
variable is read. -/
def unboundLocal (v : String) : String :=
  "UnboundLocalError: local variable " ++ v ++ " referenced before assignment"

/-- The ANTHROPIC arm of the loop (agent.py lines 318-393) plus the
for/else clause.  Arguments: iteration counter, remaining iterations,
history so far.  On `stop_reason == "tool_use"` with a tool_use block, a
successful invocation appends the assistant tool-call message and the
tool-result message and continues; a failing one appends the
`Tool failed:` user message and continues.  On `stop_reason == "end_turn"`
with a text block the text is returned at once (the `verbose` flag only
gates prints).  When the iterations run out, the for/else clause reads the
local `output`, which the ANTHROPIC arm never assigns. -/
def anthropicLoop (verbose : Bool) (responses : Nat → AnthropicResponse)
    (invoke : Nat → String → String → Except String String) :
    Nat → Nat → List Message → RunOutcome × List Message
  | _, 0, messages => (.raises (unboundLocal "output"), messages)
  | i, rem + 1, messages =>
    let response := responses i
    if response.stop_reason == "tool_use" then
      match response.content.find? ContentBlock.isToolUse with
      | some (.tool_use tid name input) =>
        match invoke i name input with
        | .ok result =>
          anthropicLoop verbose responses invoke (i + 1) rem
            (messages ++ [.assistant_blocks response.content, .user_tool_result tid result])
        | .error e =>
          anthropicLoop verbose responses invoke (i + 1) rem
            (messages ++ [.user ("Tool failed: " ++ e)])
      | _ => anthropicLoop verbose responses invoke (i + 1) rem messages
    else if response.stop_reason == "end_turn" then
      match response.content.find? ContentBlock.isText with
      | some (.text t) => (.returns t, messages)
      | _ => anthropicLoop verbose responses invoke (i + 1) rem messages
    else
      anthropicLoop verbose responses invoke (i + 1) rem messages

/-- The OPENAI arm of the loop (agent.py lines 318, 395-458) plus the
for/else clause (lines 460-465, 503).  `last_output` tracks the local
`output`, assigned on line 411 each iteration.  On a `"function"` output,
the `try` block first invokes the tool; if that succeeds, building the
assistant message (lines 429-440) evaluates `tool_call.id`, and the local
`tool_call` is assigned nowhere reachable in this path (only inside the
dead OLLAMA block, line 472), so an UnboundLocalError is raised inside the
`try`, caught by `except Exception` (line 451), and recorded as a single
`Tool failed:` user message; a failing invocation is caught the same way.
Either way the loop continues.  On any other output the iteration does
nothing: the `else` that would return the final answer sits on the `for`,
not on the `if` (line 460).  When the iterations run out, the for/else
clause returns the raw `output` object if `verbose`, else falls through to
`return "Max iterations reached"`. -/
def openaiLoop (verbose : Bool) (responses : Nat → OpenAIOutput)
    (invoke : Nat → String → String → Except String String) :
    Nat → Nat → Option OpenAIOutput → List Message → RunOutcome × List Message
  | _, 0, last_output, messages =>
    match last_output with
    | none => (.raises (unboundLocal "output"), messages)
    | some output =>
      if verbose then (.returnsOutput output, messages)
      else (.returns "Max iterations reached", messages)
  | i, rem + 1, _, messages =>
    let output := responses i
    match output with
    | .function name arguments content =>
      match invoke i name arguments with
      | .ok _result =>
        openaiLoop verbose responses invoke (i + 1) rem (some (.function name arguments content))
          (messages ++ [.user ("Tool failed: " ++ unboundLocal "tool_call")])
      | .error e =>
        openaiLoop verbose responses invoke (i + 1) rem (some (.function name arguments content))
          (messages ++ [.user ("Tool failed: " ++ e)])
    | .message c =>
      openaiLoop verbose responses invoke (i + 1) rem (some (.message c)) messages

/-- The loop as executed when `config.provider == "ollama"` (agent.py line
318 and the for/else clause): the body's `if ANTHROPIC / elif OPENAI`
matches neither branch, so each iteration does nothing, and the for/else
clause reads the never-assigned local `output`.  The OLLAMA handling block
(lines 466-501) hangs off `if verbose:` inside the for/else clause and can
only be reached after `final_response = output` succeeds with
`verbose == false` and the provider equal to `"ollama"`, which no execution
satisfies: it is dead code (see `ollama_branch`). -/
def ollamaLoop : Nat → List Message → RunOutcome × List Message
  | 0, messages => (.raises (unboundLocal "output"), messages)
  | rem + 1, messages => ollamaLoop rem messages

/-- `run` under the ANTHROPIC provider: initial history is the single user
message `userid + " " + user_message` (agent.py lines 314-316). -/
def run_anthropic (config : AgentConfig) (userid : String) (user_message : String)
    (verbose : Bool) (responses : Nat → AnthropicResponse)
    (invoke : Nat → String → String → Except String String) :
    RunOutcome × List Message :=
  anthropicLoop verbose responses invoke 0 config.max_iterations
    [.user (userid ++ " " ++ user_message)]

/-- `run` under the OPENAI provider. -/
def run_openai (config : AgentConfig) (userid : String) (user_message : String)
    (verbose : Bool) (responses : Nat → OpenAIOutput)
    (invoke : Nat → String → String → Except String String) :
    RunOutcome × List Message :=
  openaiLoop verbose responses invoke 0 config.max_iterations none
    [.user (userid ++ " " ++ user_message)]

/-- `run` under the OLLAMA provider: no provider or tool oracle is ever
consulted, because the loop body has no branch for this provider. -/
def run_ollama (config : AgentConfig) (userid : String) (user_message : String)
    (verbose : Bool) : RunOutcome × List Message :=
  (ollamaLoop config.max_iterations [.user (userid ++ " " ++ user_message)])

/-- The message object of an Ollama chat response (`response["message"]`):
its content and its (possibly absent or empty) `tool_calls` list, each call
carrying `function.name` and `function.arguments`. -/
structure OllamaMessage where
  content : String := ""
  tool_calls : List (String × String) := []
deriving DecidableEq, Repr

/-- The single-quote character, written escaped. -/
def sq : String := "\x27"

/-- The finalization prompt built on agent.py lines 482-484. -/
def ollamaFinalPrompt (tool_name : String) (result : String) (user_message : String) : String :=
  "Tool " ++ sq ++ tool_name ++ sq ++ " returned: " ++ result ++
    "\nBased on this, answer: \x22" ++ user_message ++ "\x22\nProvide a natural language response."

/-- The OLLAMA handling block exactly as written on agent.py lines 466-501,
modelled in isolation because `run` never reaches it (see `ollamaLoop`).
Were it executed with the loop's locals in scope: a response without tool
calls returns its content; a response whose first tool call invokes
successfully triggers a second provider request with tools disabled
(`second` maps the finalization prompt to that response's message) and
returns that second message's content; a failing invocation returns the
`Tool execution failed:` string.  The returned flags record whether the
second, tools-disabled call happened and with which prompt. -/
def ollama_branch (user_message : String) (first : OllamaMessage)
    (invoke : String → String → Except String String)
    (second : String → OllamaMessage) :
    RunOutcome × Bool × Option String :=
  match first.tool_calls with
  | [] => (.returns first.content, false, none)
  | (tool_name, tool_params) :: _ =>
    match invoke tool_name tool_params with
    | .ok result =>
      let final_prompt := ollamaFinalPrompt tool_name result user_message
      (.returns (second final_prompt).content, true, some final_prompt)
    | .error e => (.returns ("Tool execution failed: " ++ e), false, none)

/-
Association-list lemmas for the Python-dict model of the tool registry.
-/

/-- Looking up the key just assigned yields the assigned value. -/
theorem dictInsert_lookup_self (reg : List (String × ToolInfo)) (k : String) (v : ToolInfo) :
    (dictInsert reg k v).lookup k = some v := by
  induction reg with
  | nil => simp [dictInsert, List.lookup]
  | cons p rest ih =>
    obtain ⟨k', v'⟩ := p
    by_cases h : k' = k
    · subst h
      simp [dictInsert, List.lookup]
    · have hb : (k' == k) = false := beq_eq_false_iff_ne.mpr h
      have hb2 : (k == k') = false := beq_eq_false_iff_ne.mpr (fun hh => h hh.symm)
      simp [dictInsert, List.lookup, hb, hb2, ih]

/-- Assigning one key leaves lookups of other keys unchanged. -/
theorem dictInsert_lookup_ne (reg : List (String × ToolInfo)) (k n : String) (v : ToolInfo)
    (h : ¬ n = k) : (dictInsert reg k v).lookup n = reg.lookup n := by
  have hb : (n == k) = false := beq_eq_false_iff_ne.mpr h
  induction reg with
  | nil => simp [dictInsert, List.lookup, hb]
  | cons p rest ih =>
    obtain ⟨k', v'⟩ := p
    by_cases hk : k' = k
    · subst hk
      simp [dictInsert, List.lookup, hb]
    · have hbk : (k' == k) = false := beq_eq_false_iff_ne.mpr hk
      by_cases hn : n = k'
      · subst hn
        simp [dictInsert, List.lookup, hbk]
      · have hbn : (n == k') = false := beq_eq_false_iff_ne.mpr hn
        simp [dictInsert, List.lookup, hbk, hbn, ih]

/-- A key present in the registry stays present (possibly overwritten) after
the registry-building loop runs over any catalog. -/
theorem registerTools_lookup_preserved (url : String) (catalog : List ToolEntry) :
    ∀ (reg : List (String × ToolInfo)) (n : String) (i : ToolInfo),
      reg.lookup n = some i →
      ∃ j, (registerTools url catalog reg).lookup n = some j := by
  induction catalog with
  | nil => exact fun reg n i h => ⟨i, h⟩
  | cons t rest ih =>
    intro reg n i h
    cases ht : t.fname with
    | none =>
      simp only [registerTools, ht]
      exact ih reg n i h
    | some name =>
      by_cases he : name = ""
      · subst he
        simp only [registerTools, ht, beq_self_eq_true, if_true]
        exact ih reg n i h
      · have hne : (name == "") = false := by simp [he]
        simp only [registerTools, ht, hne, Bool.false_eq_true, if_false]
        by_cases hn : n = name
        · subst hn
          exact ih _ n _ (dictInsert_lookup_self reg n _)
        · refine ih _ n i ?_
          rw [dictInsert_lookup_ne reg name n _ hn]
          exact h

/-- Every key the registry-building loop can produce comes from a catalog
entry carrying that name, and its value is the info built for that entry,
unless the key was already present before the loop. -/
theorem registerTools_lookup_mem (url : String) (catalog : List ToolEntry) :
    ∀ (reg : List (String × ToolInfo)) (n : String) (info : ToolInfo),
      (registerTools url catalog reg).lookup n = some info →
      (∃ t ∈ catalog, t.fname = some n ∧ info = buildToolInfo url n t) ∨
        reg.lookup n = some info := by
  induction catalog with
  | nil => exact fun reg n info h => .inr h
  | cons t rest ih =>
    intro reg n info h
    cases ht : t.fname with
    | none =>
      simp only [registerTools, ht] at h
      rcases ih reg n info h with ⟨t', ht', hn', hi'⟩ | hr
      · exact .inl ⟨t', List.mem_cons_of_mem t ht', hn', hi'⟩
      · exact .inr hr
    | some name =>
      by_cases he : name = ""
      · subst he
        simp only [registerTools, ht, beq_self_eq_true, if_true] at h
        rcases ih reg n info h with ⟨t', ht', hn', hi'⟩ | hr
        · exact .inl ⟨t', List.mem_cons_of_mem t ht', hn', hi'⟩
        · exact .inr hr
      · have hne : (name == "") = false := by simp [he]
        simp only [registerTools, ht, hne, Bool.false_eq_true, if_false] at h
        rcases ih _ n info h with ⟨t', ht', hn', hi'⟩ | hr
        · exact .inl ⟨t', List.mem_cons_of_mem t ht', hn', hi'⟩
        · by_cases hn : n = name
          · subst hn
            rw [dictInsert_lookup_self] at hr
            exact .inl ⟨t, List.mem_cons_self t rest, ht, (Option.some.inj hr).symm⟩
          · rw [dictInsert_lookup_ne reg name n _ hn] at hr
            exact .inr hr

/-- Every catalog entry with a truthy name ends up registered. -/
theorem registerTools_named_found (url : String) (catalog : List ToolEntry) :
    ∀ (reg : List (String × ToolInfo)) (t : ToolEntry) (n : String),
      t ∈ catalog → t.fname = some n → ¬ n = "" →
      ∃ info, (registerTools url catalog reg).lookup n = some info := by
  induction catalog with
  | nil => exact fun reg t n ht => absurd ht (List.not_mem_nil t)
  | cons t' rest ih =>
    intro reg t n ht hn hne
    rcases List.mem_cons.mp ht with rfl | hmem
    · have hb : (n == "") = false := by simp [hne]
      simp only [registerTools, hn, hb, Bool.false_eq_true, if_false]
      exact registerTools_lookup_preserved url rest _ n _ (dictInsert_lookup_self reg n _)
    · cases ht' : t'.fname with
      | none =>
        simp only [registerTools, ht']
        exact ih reg t n hmem hn hne
      | some name' =>
        by_cases he : name' = ""
        · subst he
          simp only [registerTools, ht', beq_self_eq_true, if_true]
          exact ih reg t n hmem hn hne
        · have hb : (name' == "") = false := by simp [he]
          simp only [registerTools, ht', hb, Bool.false_eq_true, if_false]
          exact ih _ t n hmem hn hne

/-- Lookup in the name-to-description view used by `get_available_tools` is
the description of the registry lookup. -/
theorem lookup_map_description (reg : List (String × ToolInfo)) (n : String) :
    (reg.map (fun p => (p.1, p.2.description))).lookup n
      = (reg.lookup n).map ToolInfo.description := by
  induction reg with
  | nil => simp [List.lookup]
  | cons p rest ih =>
    obtain ⟨k, v⟩ := p
    by_cases h : n = k
    · subst h
      simp [List.lookup]
    · have hb : (n == k) = false := beq_eq_false_iff_ne.mpr h
      simp [List.lookup, hb, ih]

/-
Concrete fixtures used by the claim witnesses.
-/

/-- A registered tool that does have a direct endpoint. -/
def infoT1 : ToolInfo :=
  { description := some "user data lookup"
    parameters := some "\x7b\x7d"
    direct_endpoint := some "http://localhost:8001/lookup"
    proxy_endpoint := "http://localhost:3333/tools/t1" }

/-- A registered tool with no direct endpoint. -/
def infoT2 : ToolInfo :=
  { description := some "proxy only"
    parameters := none
    direct_endpoint := none
    proxy_endpoint := "http://localhost:3333/tools/t2" }

/-- An agent state after a successful discovery of two tools. -/
def stDiscovered : AgentState :=
  { tools := []
    tool_registry := [("t1", infoT1), ("t2", infoT2)]
    tools_discovered := true }

/-- A transport oracle whose every POST succeeds with an empty JSON object. -/
def okTransport : String → String → Except String String := fun _ _ => .ok "\x7b\x7d"

/-- A configuration that pins tool `t1` to the proxy path. -/
def cfgForce : AgentConfig := { force_proxy_tools := ["t1"] }

/-- Anthropic-provider configuration with a budget of one iteration. -/
def cfgAnth1 : AgentConfig := { provider := "anthropic", max_iterations := 1 }

/-- Anthropic-provider configuration with a budget of two iterations. -/
def cfgAnth2 : AgentConfig := { provider := "anthropic", max_iterations := 2 }

/-- OpenAI-provider configuration with a budget of one iteration. -/
def cfgOpenai1 : AgentConfig := { provider := "openai", max_iterations := 1 }

/-- Ollama-provider configuration with the default budget. -/
def cfgOll : AgentConfig := { provider := "ollama", max_iterations := 5 }

/-- An Anthropic response stream that always requests the same tool call. -/
def aRespFail : Nat → AnthropicResponse := fun _ =>
  { stop_reason := "tool_use", content := [.tool_use "id1" "lookup_user_data" "\x7b\x7d"] }

/-- A tool oracle whose every invocation fails with a server error. -/
def aInvokeFail : Nat → String → String → Except String String := fun _ _ _ =>
  .error "Server error 500"

/-- An Anthropic response stream: first a tool call, then a final answer. -/
def aRespToolThenDone : Nat → AnthropicResponse := fun i =>
  if i = 0 then
    { stop_reason := "tool_use", content := [.tool_use "id1" "lookup_user_data" "\x7b\x7d"] }
  else
    { stop_reason := "end_turn", content := [.text "done"] }

/-- An Ollama first response carrying one tool call. -/
def ollFirst : OllamaMessage :=
  { content := "", tool_calls := [("lookup_user_data", "\x7b\x7d")] }

/-
Claim theorems.
-/

/-- C1 (code defect): under the Anthropic provider with max_iterations = 1,
a run whose single response matches no branch exhausts the loop, and the
for/else clause raises UnboundLocalError reading the never-assigned local
`output` instead of returning the "Max iterations reached" sentinel. -/
theorem run_anthropic_exhaustion_raises :
    run_anthropic cfgAnth1 "u1" "hello" true
        (fun _ => { stop_reason := "max_tokens", content := [] })
        (fun _ _ _ => .ok "") =
      (.raises (unboundLocal "output"), [.user "u1 hello"]) := by
  rfl

/-- C2: in every iteration whose tool invocation fails, for every failure
text, the exception is caught inside the loop: the Anthropic and OpenAI
arms append exactly one `Tool failed:` user message and continue with the
next iteration, and the Ollama arm never invokes a tool at all (its
iteration changes nothing), so no tool failure can escape `run`. -/
theorem tool_failure_recovered_in_loop :
    (∀ (verbose : Bool) (responses : Nat → AnthropicResponse)
       (invoke : Nat → String → String → Except String String)
       (i rem : Nat) (ms : List Message) (tid name input e : String),
       (responses i).stop_reason = "tool_use" →
       (responses i).content.find? ContentBlock.isToolUse = some (.tool_use tid name input) →
       invoke i name input = .error e →
       anthropicLoop verbose responses invoke i (rem + 1) ms =
         anthropicLoop verbose responses invoke (i + 1) rem
           (ms ++ [.user ("Tool failed: " ++ e)])) ∧
    (∀ (verbose : Bool) (responses : Nat → OpenAIOutput)
       (invoke : Nat → String → String → Except String String)
       (i rem : Nat) (last : Option OpenAIOutput) (ms : List Message)
       (name args c e : String),
       responses i = .function name args c →
       invoke i name args = .error e →
       openaiLoop verbose responses invoke i (rem + 1) last ms =
         openaiLoop verbose responses invoke (i + 1) rem (some (.function name args c))
           (ms ++ [.user ("Tool failed: " ++ e)])) ∧
    (∀ (rem : Nat) (ms : List Message), ollamaLoop (rem + 1) ms = ollamaLoop rem ms) := by
  refine ⟨?_, ?_, ?_⟩
  · intro verbose responses invoke i rem ms tid name input e hsr hfind hinv
    simp [anthropicLoop, hsr, hfind, hinv]
  · intro verbose responses invoke i rem last ms name args c e hresp hinv
    simp [openaiLoop, hresp, hinv]
  · intro rem ms
    rfl

/-- Witness for C2 at a concrete failing invocation under the Anthropic arm. -/
theorem tool_failure_recovered_in_loop_witness :
    anthropicLoop true aRespFail aInvokeFail 0 1 [] =
      anthropicLoop true aRespFail aInvokeFail 1 0
        [.user ("Tool failed: " ++ "Server error 500")] :=
  tool_failure_recovered_in_loop.1 true aRespFail aInvokeFail 0 0 []
    "id1" "lookup_user_data" "\x7b\x7d" "Server error 500" rfl rfl rfl

/-- C3 (code defect): under the OpenAI provider a final-answer response does
not return in its own iteration; the run only ends via the for/else clause,
whose value depends on the verbose flag — the raw output object when
verbose, the exhaustion sentinel otherwise. -/
theorem openai_final_answer_gated_on_verbose :
    (run_openai cfgOpenai1 "u1" "hello" false
        (fun _ => .message "The answer is 42") (fun _ _ _ => .ok "")).1
      = .returns "Max iterations reached" ∧
    (run_openai cfgOpenai1 "u1" "hello" true
        (fun _ => .message "The answer is 42") (fun _ _ _ => .ok "")).1
      = .returnsOutput (.message "The answer is 42") := by
  exact ⟨rfl, rfl⟩

/-- C4 (code defect): under the OpenAI provider a successful tool invocation
appends a single `Tool failed:` message caused by the never-assigned local
`tool_call`, not the assistant tool-call plus tool-result pair; the
Anthropic arm does append exactly those two messages and continue. -/
theorem openai_tool_success_appends_failure_message :
    (run_openai cfgOpenai1 "u1" "hello" true
        (fun _ => .function "lookup_user_data" "\x7b\x7d" "")
        (fun _ _ _ => .ok "\x7b\x7d")).2
      = [.user "u1 hello", .user ("Tool failed: " ++ unboundLocal "tool_call")] ∧
    run_anthropic cfgAnth2 "u1" "hello" true aRespToolThenDone
        (fun _ _ _ => .ok "result") =
      (.returns "done",
       [.user "u1 hello",
        .assistant_blocks [.tool_use "id1" "lookup_user_data" "\x7b\x7d"],
        .user_tool_result "id1" "result"]) := by
  exact ⟨rfl, rfl⟩

/-- C5: a registered tool named in the force-proxy set is always invoked via
its proxy endpoint, for every per-call override and process default, even
when a direct endpoint is registered. -/
theorem force_proxy_always_proxy (config : AgentConfig) (st : AgentState)
    (fetch : Except String (List ToolEntry)) (name input : String)
    (ud : Option Bool) (transport : String → String → Except String String)
    (info : ToolInfo)
    (hdisc : st.tools_discovered = true)
    (hforce : name ∈ config.force_proxy_tools)
    (hreg : st.tool_registry.lookup name = some info) :
    invoke_tool config st fetch name input ud transport =
      { result := transport info.proxy_endpoint input
        endpoint_used := some (info.proxy_endpoint, .proxy)
        warned := false } := by
  simp [invoke_tool, discover_tools, hdisc, hreg, hforce]

/-- Witness for C5: t1 has a direct endpoint and the caller asks for it, yet
the proxy endpoint is used. -/
theorem force_proxy_always_proxy_witness :
    invoke_tool cfgForce stDiscovered (.ok []) "t1" "\x7b\x7d" (some true) okTransport =
      { result := .ok "\x7b\x7d"
        endpoint_used := some ("http://localhost:3333/tools/t1", .proxy)
        warned := false } :=
  force_proxy_always_proxy cfgForce stDiscovered (.ok []) "t1" "\x7b\x7d" (some true)
    okTransport infoT1 rfl (by decide) rfl

/-- C6: after one successful discovery, a second call to `discover_tools`
makes no catalog fetch and returns the cached list unchanged, leaving the
state as it was: exactly one fetch across both calls. -/
theorem discover_tools_idempotent (config : AgentConfig) (st : AgentState)
    (catalog : List ToolEntry) (fetch2 : Except String (List ToolEntry))
    (h : st.tools_discovered = false) :
    (discover_tools config st (.ok catalog)).network_calls = 1 ∧
    (discover_tools config st (.ok catalog)).result = .ok catalog ∧
    (discover_tools config st (.ok catalog)).state.tools = catalog ∧
    (discover_tools config (discover_tools config st (.ok catalog)).state fetch2).network_calls = 0 ∧
    (discover_tools config (discover_tools config st (.ok catalog)).state fetch2).result
      = .ok catalog ∧
    (discover_tools config (discover_tools config st (.ok catalog)).state fetch2).state
      = (discover_tools config st (.ok catalog)).state := by
  simp [discover_tools, h]

/-- Witness for C6 on a concrete one-tool catalog from a fresh agent. -/
theorem discover_tools_idempotent_witness :
    (discover_tools cfgForce freshState (.ok [{ fname := some "t1" }])).network_calls = 1 ∧
    (discover_tools cfgForce
        (discover_tools cfgForce freshState (.ok [{ fname := some "t1" }])).state
        (.error "down")).network_calls = 0 ∧
    (discover_tools cfgForce
        (discover_tools cfgForce freshState (.ok [{ fname := some "t1" }])).state
        (.error "down")).result = .ok [{ fname := some "t1" }] := by
  have h := discover_tools_idempotent cfgForce freshState [{ fname := some "t1" }]
    (.error "down") rfl
  exact ⟨h.1, h.2.2.2.1, h.2.2.2.2.1⟩

/-- C7: invoking a registered tool that has no direct endpoint while the
resolved preference is direct succeeds through the proxy endpoint with the
fallback warning — no error is raised and the POST still happens. -/
theorem missing_direct_falls_back_to_proxy (config : AgentConfig) (st : AgentState)
    (fetch : Except String (List ToolEntry)) (name input : String)
    (ud : Option Bool) (transport : String → String → Except String String)
    (info : ToolInfo)
    (hdisc : st.tools_discovered = true)
    (hreg : st.tool_registry.lookup name = some info)
    (hnd : info.direct_endpoint = none)
    (hnf : name ∉ config.force_proxy_tools)
    (hud : ud.getD config.use_direct_tool_calls = true) :
    invoke_tool config st fetch name input ud transport =
      { result := transport info.proxy_endpoint input
        endpoint_used := some (info.proxy_endpoint, .proxyFallback)
        warned := true } := by
  simp [invoke_tool, discover_tools, hdisc, hreg, hnd, hnf, hud]

/-- Witness for C7: t2 has no direct endpoint; a preferDirect call lands on
the proxy endpoint with the warning and succeeds. -/
theorem missing_direct_falls_back_to_proxy_witness :
    invoke_tool cfgForce stDiscovered (.ok []) "t2" "\x7b\x7d" (some true) okTransport =
      { result := .ok "\x7b\x7d"
        endpoint_used := some ("http://localhost:3333/tools/t2", .proxyFallback)
        warned := true } :=
  missing_direct_falls_back_to_proxy cfgForce stDiscovered (.ok []) "t2" "\x7b\x7d"
    (some true) okTransport infoT2 rfl rfl rfl (by decide) rfl

/-- C8 (code defect): under the Ollama provider, `run` raises
UnboundLocalError for every verbosity without making any provider or tool
call, because the loop body has no Ollama branch and the handling block of
lines 466-501 is unreachable; that block as written does implement the
claimed behavior — on a first response with a tool call and a successful
invocation it issues a second, tools-disabled request and returns that
response's content. -/
theorem ollama_run_raises_branch_dead :
    (run_ollama cfgOll "u1" "hello" true).1 = .raises (unboundLocal "output") ∧
    (run_ollama cfgOll "u1" "hello" false).1 = .raises (unboundLocal "output") ∧
    ollama_branch "u1 hello" ollFirst (fun _ _ => .ok "42")
        (fun _ => { content := "It is 42" }) =
      (.returns "It is 42", true,
       some (ollamaFinalPrompt "lookup_user_data" "42" "u1 hello")) := by
  exact ⟨rfl, rfl, rfl⟩

/-- C9: constructing the agent for a credential-requiring provider with no
key in the configuration and none in the environment fails at construction
(no network oracle is consulted); the Ollama provider constructs without
any credential. -/
theorem init_requires_credentials (config : AgentConfig) (env : String → Option String)
    (hkey : config.api_key = none)
    (ha : env "ANTHROPIC_API_KEY" = none)
    (ho : env "OPENAI_API_KEY" = none) :
    (config.provider = "anthropic" →
      init config env = .error "ANTHROPIC_API_KEY must be set for Anthropic provider") ∧
    (config.provider = "openai" →
      init config env = .error "OPENAI_API_KEY must be set for OpenAI provider") ∧
    (config.provider = "ollama" →
      init config env =
        .ok { config := config, model := pyOrStr config.model "mistral:latest", api_key := none }) := by
  refine ⟨fun hp => ?_, fun hp => ?_, fun hp => ?_⟩ <;>
    simp [init, hp, hkey, ha, ho, pyOrOpt, pyTruthy,
      LLMProvider.OLLAMA, LLMProvider.ANTHROPIC, LLMProvider.OPENAI]

/-- Witness for C9: Anthropic without a key fails, Ollama without a key
constructs. -/
theorem init_requires_credentials_witness :
    init { provider := "anthropic" } (fun _ => none)
      = .error "ANTHROPIC_API_KEY must be set for Anthropic provider" ∧
    init cfgOll (fun _ => none)
      = .ok { config := cfgOll, model := "mistral:latest", api_key := none } := by
  refine ⟨(init_requires_credentials { provider := "anthropic" } (fun _ => none)
    rfl rfl rfl).1 rfl, ?_⟩
  exact (init_requires_credentials cfgOll (fun _ => none) rfl rfl rfl).2.2 rfl

/-- C10: after a successful discovery from a fresh state, the full catalog
(nameless entries included) is cached and handed to the provider-format
conversion; the registry holds exactly the truthy-named entries, each with
the proxy endpoint `url ++ "/tools/" ++ name`; `get_available_tools`
mirrors the registry; and invoking any unregistered name signals an
unknown tool. -/
theorem discovery_registry_excludes_nameless (config : AgentConfig)
    (catalog : List ToolEntry) :
    (discover_tools config freshState (.ok catalog)).state.tools = catalog ∧
    convert_tools_for_anthropic (discover_tools config freshState (.ok catalog)).state.tools
      = catalog.map (fun t =>
          { name := t.fname
            description := t.fdescription
            input_schema := t.fparameters.getD "\x7b\x7d" }) ∧
    (∀ n info,
       (discover_tools config freshState (.ok catalog)).state.tool_registry.lookup n
         = some info →
       (∃ t ∈ catalog, t.fname = some n) ∧
       info.proxy_endpoint = config.mcp_server_url ++ "/tools/" ++ n) ∧
    (∀ t ∈ catalog, ∀ n, t.fname = some n → ¬ n = "" →
       ∃ info,
         (discover_tools config freshState (.ok catalog)).state.tool_registry.lookup n
           = some info) ∧
    (∀ n, (get_available_tools (discover_tools config freshState (.ok catalog)).state).lookup n
       = ((discover_tools config freshState (.ok catalog)).state.tool_registry.lookup n).map
           ToolInfo.description) ∧
    (∀ n input ud transport,
       (discover_tools config freshState (.ok catalog)).state.tool_registry.lookup n = none →
       invoke_tool config (discover_tools config freshState (.ok catalog)).state
           (.ok catalog) n input ud transport
         = { result := .error ("Unknown tool: " ++ n), endpoint_used := none, warned := false }) := by
  have hst : (discover_tools config freshState (.ok catalog)).state
      = { tools := catalog
          tool_registry := registerTools config.mcp_server_url catalog []
          tools_discovered := true } := by
    simp [discover_tools, freshState]
  refine ⟨?_, ?_, ?_, ?_, ?_, ?_⟩
  · rw [hst]
  · rw [hst]
    rfl
  · intro n info h
    rw [hst] at h
    rcases registerTools_lookup_mem config.mcp_server_url catalog [] n info h with
      ⟨t, htm, htn, hti⟩ | hr
    · exact ⟨⟨t, htm, htn⟩, by rw [hti]; rfl⟩
    · simp [List.lookup] at hr
  · intro t htm n htn hne
    rw [hst]
    exact registerTools_named_found config.mcp_server_url catalog [] t n htm htn hne
  · intro n
    exact lookup_map_description _ n
  · intro n input ud transport h
    rw [hst] at h ⊢
    simp [invoke_tool, discover_tools, h]

/-- Witness for C10: a catalog with one nameless and one named entry; the
named one is registered, the nameless one contributes nothing, and an
unregistered name signals an unknown tool. -/
theorem discovery_registry_excludes_nameless_witness :
    (discover_tools cfgForce freshState
        (.ok [{ ttype := "function" }, { fname := some "lookup_user_data" }])).state.tools
      = [{ ttype := "function" }, { fname := some "lookup_user_data" }] ∧
    (∃ info,
      (discover_tools cfgForce freshState
          (.ok [{ ttype := "function" }, { fname := some "lookup_user_data" }])).state.tool_registry.lookup
          "lookup_user_data" = some info) ∧
    invoke_tool cfgForce
        (discover_tools cfgForce freshState
          (.ok [{ ttype := "function" }, { fname := some "lookup_user_data" }])).state
        (.ok [{ ttype := "function" }, { fname := some "lookup_user_data" }])
        "ghost" "\x7b\x7d" none okTransport
      = { result := .error "Unknown tool: ghost", endpoint_used := none, warned := false } := by
  refine ⟨(discovery_registry_excludes_nameless cfgForce _).1, ?_, ?_⟩
  · exact (discovery_registry_excludes_nameless cfgForce
      [{ ttype := "function" }, { fname := some "lookup_user_data" }]).2.2.2.1
      { fname := some "lookup_user_data" } (by decide) "lookup_user_data" rfl (by decide)
  · exact (discovery_registry_excludes_nameless cfgForce
      [{ ttype := "function" }, { fname := some "lookup_user_data" }]).2.2.2.2.2
      "ghost" "\x7b\x7d" none okTransport (by decide)

end McpAgent
